import Mathlib

/-!
Verification development for the `mapleland-exp-tracker-web` hotkey
WebSocket tools (`tools/hotkey-ws/hotkey_ws_server.py` and
`tools/local_ws_server.py`).

The Python code is shallowly embedded: the `Hub` registry is a
`Finset` of sink identities (Python `set`, uniqueness by identity);
coroutines that perform I/O are modelled as pure functions that also
return the ordered trace of the I/O actions they attempt; exceptions
raised by the network library are modelled by Boolean/`Except`
parameters saying which sends fail, and a `try/except: pass` block is
a total function that records the attempt and swallows the failure.
-/

/-- A sink is an opaque identity-comparable handle to one connected
transport endpoint (`websockets.WebSocketServerProtocol`). Only
identity matters to the Hub, so we use `Nat`. -/
abbrev Sink := Nat

/-- Outcome of one `_safe_send`: the underlying `ws.send` either
succeeded or raised and the exception was swallowed. -/
inductive SendOutcome where
  | sent
  | failedSwallowed
  deriving DecidableEq, Repr

namespace Hub

/-- Model of `Hub.add` (hotkey_ws_server.py:122-124): `self.clients.add(ws)`
under the registry lock. -/
def add (ws : Sink) (clients : Finset Sink) : Finset Sink :=
  insert ws clients

/-- Model of `Hub.remove` (hotkey_ws_server.py:126-128): `self.clients.discard(ws)`
under the registry lock — removes if present, silently no-op if absent. -/
def remove (ws : Sink) (clients : Finset Sink) : Finset Sink :=
  clients.erase ws

/-- The raw `ws.send(payload)` call, which may raise; `fails ws` says
whether the environment makes the send to sink `ws` raise. -/
def rawSend (fails : Sink → Bool) (ws : Sink) : Except String Unit :=
  if fails ws then .error "connection closed" else .ok ()

/-- Model of `Hub._safe_send` (hotkey_ws_server.py:138-143): wraps `ws.send` in
`try/except: pass`, so it never raises; a failure is recorded and
swallowed. -/
def safeSend (fails : Sink → Bool) (ws : Sink) : SendOutcome :=
  match rawSend fails ws with
  | .ok _ => .sent
  | .error _ => .failedSwallowed

/-- The snapshot `targets = list(self.clients)` taken under the lock in
`Hub.broadcast` (hotkey_ws_server.py:132-133). Python set iteration
order is unspecified; we fix the ascending enumeration of the
membership as the snapshot sequence. -/
def snapshot (clients : Finset Sink) : List Sink :=
  (List.range (clients.sup id + 1)).filter (· ∈ clients)

/-- Model of `Hub.broadcast` (hotkey_ws_server.py:130-136): snapshot the
membership under the lock, return early when empty, otherwise
`asyncio.gather` one `_safe_send` per snapshot member. Returns the list
of attempted sends `(sink, payload, outcome)` in snapshot order
together with the registry as broadcast leaves it. -/
def broadcast (fails : Sink → Bool) (clients : Finset Sink) (payload : String) :
    List (Sink × String × SendOutcome) × Finset Sink :=
  let targets := snapshot clients
  if targets.isEmpty then ([], clients)
  else (targets.map (fun ws => (ws, payload, safeSend fails ws)), clients)

end Hub

/-! ## Connection handler (`ws_handler`, hotkey_ws_server.py:146-158)

The coroutine is modelled as a pure function of its environment: the
list of text messages actually received before the stream ends, how the
`async for` iteration ends (cleanly on close / end of stream, or by
raising), and which reply sends raise. It returns the ordered trace of
actions it performs on the Hub and the socket. -/

/-- One received text message together with whether the reply send
(`ws.send`) succeeds or raises. -/
structure StreamItem where
  text : String
  replyOk : Bool
  deriving DecidableEq, Repr

/-- How the `async for msg in ws` iteration ends once `items` is
exhausted: `clean` for explicit close / end of stream, `recvError` for
a receive error raised by the iterator. -/
inductive StreamEnd where
  | clean
  | recvError
  deriving DecidableEq, Repr

/-- An observable action of the handler: registry add/remove, or an
attempted send of a payload to a sink. -/
inductive Act where
  | add (ws : Sink)
  | send (ws : Sink) (payload : String)
  | remove (ws : Sink)
  deriving DecidableEq, Repr

/-- The reply chosen for one received text (hotkey_ws_server.py:153-156):
literal `ping` gets `pong` and `continue` skips the echo; any other
text gets `echo:` followed by the text verbatim. -/
def replyTo (m : String) : String :=
  if m = "ping" then "pong" else "echo:" ++ m

/-- The `async for` body of `ws_handler`: reply to each received
message in order; a reply send that raises aborts the loop (after the
attempt), and a receive error after the last delivered message also
raises. Returns (attempted sends, whether the loop raised). -/
def recvLoop (ws : Sink) : List StreamItem → StreamEnd → List Act × Bool
  | [], .clean => ([], false)
  | [], .recvError => ([], true)
  | item :: rest, stop =>
    let a := Act.send ws (replyTo item.text)
    if item.replyOk then
      let r := recvLoop ws rest stop
      (a :: r.1, r.2)
    else
      ([a], true)

/-- The greeting sent right after registration
(hotkey_ws_server.py:150): the output of
`json.dumps({"type": "hello", "msg": "connected"}, ensure_ascii=False)`. -/
def helloFrame : String := "\x7b\"type\": \"hello\", \"msg\": \"connected\"\x7d"

/-- Model of `ws_handler` (hotkey_ws_server.py:146-158): `hub.add(ws)`, then a
`try` block that sends the hello frame (which may itself raise, modelled
by `helloOk`) and runs the receive loop, and a `finally` block that
always runs `hub.remove(ws)`. Returns the action trace, the registry
after the handler exits, and whether an exception escaped the `try`. -/
def wsHandler (clients : Finset Sink) (ws : Sink) (helloOk : Bool)
    (items : List StreamItem) (stop : StreamEnd) : List Act × Finset Sink × Bool :=
  let loopRes := if helloOk then recvLoop ws items stop else ([], true)
  (Act.add ws :: Act.send ws helloFrame :: loopRes.1 ++ [Act.remove ws],
   Hub.remove ws (Hub.add ws clients),
   loopRes.2)

/-! ## Minimal local test server (`tools/local_ws_server.py`) -/

/-- A Python value as far as the local test server's handler inspects
it: `json.loads` may return a dict, a string, or anything else. -/
inductive PyVal where
  | dict (entries : List (String × PyVal))
  | str (s : String)
  | other

/-- The check `isinstance(obj, dict)`. -/
def PyVal.isDict : PyVal → Bool
  | .dict _ => true
  | _ => false

/-- The lookup `obj.get(key)` on a dict: the value for the first matching key, or
`none` when absent. -/
def PyVal.get? : PyVal → String → Option PyVal
  | .dict es, k => (es.find? (fun e => e.1 = k)).map (fun e => e.2)
  | _, _ => none

/-- The Python comparison `obj.get("type") == "toggle"` guarded by
`isinstance(obj, dict)` (local_ws_server.py:31). -/
def isToggleMsg (v : PyVal) : Bool :=
  v.isDict && (match v.get? "type" with
    | some (.str s) => s = "toggle"
    | _ => false)

/-- The output of `json.dumps({"type": "toggled"})` (local_ws_server.py:32). -/
def toggledFrame : String := "\x7b\"type\": \"toggled\"\x7d"

/-- The per-message reply logic of `handler`
(local_ws_server.py:25-36), with `loads` standing for `json.loads`:
`ping` gets `pong`; otherwise the text is parsed, a JSON dict with
`"type" == "toggle"` gets the toggled frame, and every other text —
including text on which `json.loads` raises — is echoed. -/
def localServerReply (loads : String → Except String PyVal) (m : String) : String :=
  if m = "ping" then "pong"
  else
    match loads m with
    | .ok obj => if isToggleMsg obj then toggledFrame else "echo:" ++ m
    | .error _ => "echo:" ++ m

/-- The concrete wire text `{"type": "toggle"}`. -/
def toggleInput : String := "\x7b\"type\": \"toggle\"\x7d"

/-- Models `json.loads` at the single input `toggleInput`, where the
Python parser returns the dict `{"type": "toggle"}`; every other input
is left unmodelled (treated as a parse failure). -/
def loadsAtToggle : String → Except String PyVal := fun s =>
  if s = toggleInput then .ok (.dict [("type", .str "toggle")]) else .error "unmodelled"

/-! ## Server controller (`WsServerController`, hotkey_ws_server.py:161-277)

The controller's mutable fields and the lifecycle of its private
event-loop thread are modelled as a record; the thread's behaviour on a
start attempt is collapsed into the state it leaves behind plus the log
lines it emits, and `stop`'s scheduled `shutdown()` coroutine into the
ordered trace of shutdown actions it performs. -/

/-- Model of `jmsg` (hotkey_ws_server.py:30-31): `json.dumps({"type": t},
ensure_ascii=False)` for the escape-free kind names the program uses
(`"toggle"`, `"reset"`). -/
def jmsg (t : String) : String := "\x7b\"type\": \"" ++ t ++ "\"\x7d"

namespace WsServerController

/-- The controller's observable state: `_running`, whether `_loop` /
`_server` are set, whether the private event loop is still alive (not
closed or stopped), the `_hub` and its client registry, and the
broadcast payloads handed to the runtime so far. -/
structure State where
  running : Bool
  loopSet : Bool
  loopAlive : Bool
  serverSet : Bool
  hub : Option (Finset Sink)
  scheduled : List String
  deriving DecidableEq

/-- A freshly constructed controller (hotkey_ws_server.py:164-172):
not running, no loop, no server, no hub, nothing scheduled. -/
def initial : State :=
  { running := false, loopSet := false, loopAlive := false,
    serverSet := false, hub := none, scheduled := [] }

/-- The log lines the start path can emit through the caller-provided
log callback: the startup banner, the bind error report from the
`except` block, and the final stop notice. -/
inductive LogEntry where
  | started
  | bindError
  | stopped
  deriving DecidableEq, Repr

/-- Model of `start` (hotkey_ws_server.py:184-230) together with the outcome of
the spawned `run()` thread, parameterised by whether the bind
(`websockets.serve`) succeeds. Already running: immediate return. Fresh
start: the thread creates a loop and an empty `Hub`; on a successful
bind the server is set and the loop runs; on a bind failure the
exception is logged, the `finally` block closes the loop, and
`_running` is reset to `False`. -/
def start (st : State) (bindOk : Bool) : State × List LogEntry :=
  if st.running then (st, [])
  else
    let started : State :=
      { st with running := true, loopSet := true, loopAlive := true, hub := some ∅ }
    if bindOk then
      ({ started with serverSet := true }, [LogEntry.started])
    else
      ({ started with running := false, loopAlive := false },
       [LogEntry.started, LogEntry.bindError, LogEntry.stopped])

/-- Model of `broadcast` (hotkey_ws_server.py:269-277): when not running, or the
loop or the hub is unset, return without any effect; otherwise schedule
`hub.broadcast(payload)` on the loop. The surrounding `try/except`
swallows scheduling errors, so the function is total and never raises
into the caller. -/
def broadcast (st : State) (payload : String) : State :=
  if !st.running || !st.loopSet || st.hub.isNone then st
  else { st with scheduled := st.scheduled ++ [payload] }

/-- One step of the ordered shutdown performed by `stop`. -/
inductive ShutAct where
  | closeSink (ws : Sink)
  | closeListener
  | stopRuntime
  deriving DecidableEq, Repr

/-- Model of `stop` (hotkey_ws_server.py:232-267): no-op when not running; when
running but the loop is unset, only `_running` is cleared. Otherwise
the scheduled `shutdown()` coroutine snapshots the hub's clients under
the hub lock, attempts `close()` on each (individual failures, given by
`closeFails`, are swallowed), then closes the listening server, then
stops the loop; `run()`'s `finally` then closes the loop and clears
`_running`. Returns the final state and the ordered shutdown trace. -/
def stop (st : State) (closeFails : Sink → Bool) : State × List ShutAct :=
  if !st.running then (st, [])
  else if !st.loopSet then ({ st with running := false }, [])
  else
    let sinks := Hub.snapshot (st.hub.getD ∅)
    ({ st with running := false, loopAlive := false },
     sinks.map ShutAct.closeSink ++ [ShutAct.closeListener, ShutAct.stopRuntime])

/-- A connection lifecycle event observed by the wrapper `handler`
inside `start` (hotkey_ws_server.py:195-204). -/
inductive ConnEvent where
  | connect
  | disconnect
  deriving DecidableEq, Repr

/-- The update the wrapper `handler` applies to `_client_count` under
`_client_count_lock`: `+= 1` on connect, `max(0, count - 1)` on
disconnect (hotkey_ws_server.py:196-203). -/
def clientCountStep (n : Int) : ConnEvent → Int
  | .connect => n + 1
  | .disconnect => max 0 (n - 1)

/-- The counter after a sequence of connect/disconnect events, starting
from the constructor's `_client_count = 0`. -/
def clientCountRun (evs : List ConnEvent) : Int :=
  evs.foldl clientCountStep 0

/-- Model of `get_client_count` (hotkey_ws_server.py:180-182): returns
`int(self._client_count)` under the counter lock. -/
def get_client_count (n : Int) : Int := n

end WsServerController

/-! ## Theorems -/

/-- The broadcast snapshot enumerates exactly the registry membership. -/
theorem mem_snapshot {clients : Finset Sink} {ws : Sink} :
    ws ∈ Hub.snapshot clients ↔ ws ∈ clients := by
  unfold Hub.snapshot
  simp only [List.mem_filter, List.mem_range, decide_eq_true_eq]
  constructor
  · exact fun h => h.2
  · exact fun h => ⟨Nat.lt_succ_of_le (Finset.le_sup (f := id) h), h⟩

/-- C1: for every registry present when `broadcast` takes its snapshot,
a send of the payload is attempted for every sink of the pre-broadcast
snapshot — the attempt list is exactly the snapshot, for every pattern
of send failures, so a failure on one sink never suppresses the
attempts on the others. -/
theorem broadcast_attempts_cover_snapshot (fails : Sink → Bool)
    (clients : Finset Sink) (m : String) :
    (Hub.broadcast fails clients m).1 =
      (Hub.snapshot clients).map (fun ws => (ws, m, Hub.safeSend fails ws)) ∧
    ∀ ws ∈ clients,
      (ws, m, Hub.safeSend fails ws) ∈ (Hub.broadcast fails clients m).1 := by
  have h1 : (Hub.broadcast fails clients m).1 =
      (Hub.snapshot clients).map (fun ws => (ws, m, Hub.safeSend fails ws)) := by
    unfold Hub.broadcast
    by_cases h : (Hub.snapshot clients).isEmpty
    · rw [List.isEmpty_iff] at h
      simp [h]
    · simp [h]
  refine ⟨h1, fun ws hws => ?_⟩
  rw [h1]
  exact List.mem_map_of_mem _ (mem_snapshot.mpr hws)

/-- C1 witness: with two registered sinks and the send to sink 2
failing, both sinks get an attempt. -/
theorem broadcast_attempts_cover_snapshot_witness :
    (Hub.broadcast (fun ws => ws == 2) {1, 2} "m").1 =
      (Hub.snapshot {1, 2}).map (fun ws => (ws, "m", Hub.safeSend (fun ws => ws == 2) ws)) ∧
    (1, "m", Hub.safeSend (fun ws => ws == 2) 1) ∈
      (Hub.broadcast (fun ws => ws == 2) {1, 2} "m").1 :=
  ⟨(broadcast_attempts_cover_snapshot (fun ws => ws == 2) {1, 2} "m").1,
   (broadcast_attempts_cover_snapshot (fun ws => ws == 2) {1, 2} "m").2 1 (by decide)⟩

/-- C2: `broadcast` never modifies the registry, whatever the pattern
of per-sink send failures — a send failure does not unregister the
failing sink. -/
theorem broadcast_preserves_registry (fails : Sink → Bool)
    (clients : Finset Sink) (m : String) :
    (Hub.broadcast fails clients m).2 = clients := by
  unfold Hub.broadcast
  by_cases h : (Hub.snapshot clients).isEmpty <;> simp [h]

/-- C4: `Hub.remove` is idempotent — removing a sink twice leaves the
registry as after the first removal, without error (the function is
total), and removing an absent sink is a no-op. -/
theorem remove_idempotent_absent_noop (clients : Finset Sink) (ws : Sink) :
    Hub.remove ws (Hub.remove ws clients) = Hub.remove ws clients ∧
    (ws ∉ clients → Hub.remove ws clients = clients) := by
  unfold Hub.remove
  exact ⟨Finset.erase_idem, fun h => Finset.erase_eq_of_not_mem h⟩

/-- C4 witness: removing the absent sink 3 from the registry `{1, 2}`
twice is the same as once, and leaves the registry unchanged. -/
theorem remove_idempotent_absent_noop_witness :
    Hub.remove 3 (Hub.remove 3 ({1, 2} : Finset Sink)) = Hub.remove 3 {1, 2} ∧
    Hub.remove 3 ({1, 2} : Finset Sink) = {1, 2} :=
  ⟨(remove_idempotent_absent_noop {1, 2} 3).1,
   (remove_idempotent_absent_noop {1, 2} 3).2 (by decide)⟩

/-- The counter stays nonnegative along any event sequence from any
nonnegative start. -/
theorem foldl_clientCountStep_nonneg :
    ∀ (evs : List WsServerController.ConnEvent) (n : Int), 0 ≤ n →
      0 ≤ evs.foldl WsServerController.clientCountStep n := by
  intro evs
  induction evs with
  | nil => intro n hn; simpa using hn
  | cons e rest ih =>
    intro n hn
    rw [List.foldl_cons]
    apply ih
    cases e with
    | connect => show (0 : Int) ≤ n + 1; omega
    | disconnect => show (0 : Int) ≤ max 0 (n - 1); exact le_max_left _ _

/-- C10: `get_client_count` never observes a negative value: starting
from 0, with connects adding one and disconnects clamped at zero, the
counter is nonnegative after every sequence of events. -/
theorem get_client_count_nonneg (evs : List WsServerController.ConnEvent) :
    0 ≤ WsServerController.get_client_count (WsServerController.clientCountRun evs) :=
  foldl_clientCountStep_nonneg evs 0 le_rfl

/-- The receive loop itself never touches the registry: none of its
actions is an unregister. -/
theorem recvLoop_no_remove (ws : Sink) (items : List StreamItem) (stop : StreamEnd) :
    Act.remove ws ∉ (recvLoop ws items stop).1 := by
  induction items with
  | nil => cases stop <;> simp [recvLoop]
  | cons item rest ih =>
    by_cases h : item.replyOk <;> simp [recvLoop, h, ih]

/-- C3: whichever way the handler's receive loop exits — hello send
failure, receive error, reply-send failure, explicit close or end of
stream — the `finally` block runs `hub.remove` exactly once, as the
last action, and the registry the handler leaves behind is the
registered-then-unregistered one. -/
theorem wsHandler_unregisters_exactly_once (clients : Finset Sink) (ws : Sink)
    (helloOk : Bool) (items : List StreamItem) (stop : StreamEnd) :
    ((wsHandler clients ws helloOk items stop).1.count (Act.remove ws) = 1) ∧
    ((wsHandler clients ws helloOk items stop).1.getLast? = some (Act.remove ws)) ∧
    ((wsHandler clients ws helloOk items stop).2.1 = Hub.remove ws (Hub.add ws clients)) := by
  have hnr : Act.remove ws ∉ (if helloOk then recvLoop ws items stop else ([], true)).1 := by
    by_cases h : helloOk
    · simpa [h] using recvLoop_no_remove ws items stop
    · simp [h]
  have htrace : (wsHandler clients ws helloOk items stop).1 =
      (Act.add ws :: Act.send ws helloFrame ::
        (if helloOk then recvLoop ws items stop else ([], true)).1) ++ [Act.remove ws] := by
    simp [wsHandler]
  refine ⟨?_, ?_, rfl⟩
  · rw [htrace]
    simp [List.count_append, List.count_cons, List.count_eq_zero.mpr hnr]
  · rw [htrace]
    exact List.getLast?_concat _

/-- C5 counterexample: the minimal test server's reply to the received
text `{"type": "toggle"}` (which `json.loads` parses into the dict with
`"type"` mapped to `"toggle"`) is the toggled frame, not the echo the
claim requires for every non-`ping` text. -/
theorem localServer_toggle_counterexample :
    localServerReply loadsAtToggle toggleInput = toggledFrame ∧
    toggledFrame ≠ "echo:" ++ toggleInput := by
  exact ⟨rfl, by decide⟩

/-- C5 (amended): both servers reply `pong` to the literal text `ping`;
the hotkey server replies `echo:` followed by the text verbatim to
anything else, and no message content ends the receive loop (with all
reply sends succeeding and a clean stream end, every received message
is answered and the loop exits without error); the minimal test server
behaves the same except that every non-`ping` text parsing as a JSON
dict with `"type" == "toggle"` is answered with `{"type": "toggled"}`
instead of the echo, while every non-`ping` text that does not parse as
such a dict — including text on which the parse raises — is echoed
verbatim. -/
theorem reply_protocol (ws : Sink) :
    replyTo "ping" = "pong" ∧
    (∀ t, t ≠ "ping" → replyTo t = "echo:" ++ t) ∧
    (∀ texts : List String,
      recvLoop ws (texts.map (fun t => ⟨t, true⟩)) .clean =
        (texts.map (fun t => Act.send ws (replyTo t)), false)) ∧
    (∀ loads, localServerReply loads "ping" = "pong") ∧
    (∀ loads m obj, m ≠ "ping" → loads m = .ok obj → isToggleMsg obj = true →
      localServerReply loads m = toggledFrame) ∧
    (∀ loads m, m ≠ "ping" →
      (∀ obj, loads m = .ok obj → isToggleMsg obj = false) →
      localServerReply loads m = "echo:" ++ m) := by
  refine ⟨rfl, fun t ht => by simp [replyTo, ht], fun texts => ?_,
    fun loads => rfl,
    fun loads m obj hm hl ht => by simp [localServerReply, hm, hl, ht],
    fun loads m hm hobj => ?_⟩
  · induction texts with
    | nil => simp [recvLoop]
    | cons t rest ih => simp [recvLoop, ih]
  · cases hl : loads m with
    | ok obj => simp [localServerReply, hm, hl, hobj obj hl]
    | error e => simp [localServerReply, hm, hl]

/-- C5 witness: concrete instances of the amended protocol — `ping`
answered by `pong` on both servers, `foo` echoed, a two-message stream
fully processed, the test server's toggled reply to the parsed toggle
text, and its echo of an unparsable text. -/
theorem reply_protocol_witness :
    replyTo "ping" = "pong" ∧
    replyTo "foo" = "echo:foo" ∧
    recvLoop 7 [⟨"ping", true⟩, ⟨"foo", true⟩] .clean =
      ([Act.send 7 "pong", Act.send 7 "echo:foo"], false) ∧
    localServerReply loadsAtToggle "ping" = "pong" ∧
    localServerReply loadsAtToggle toggleInput = toggledFrame ∧
    localServerReply loadsAtToggle "bar" = "echo:bar" :=
  ⟨(reply_protocol 7).1,
   (reply_protocol 7).2.1 "foo" (by decide),
   (reply_protocol 7).2.2.1 ["ping", "foo"],
   (reply_protocol 7).2.2.2.1 loadsAtToggle,
   (reply_protocol 7).2.2.2.2.1 loadsAtToggle toggleInput (.dict [("type", .str "toggle")])
     (by decide) rfl rfl,
   (reply_protocol 7).2.2.2.2.2 loadsAtToggle "bar" (by decide)
     (fun obj h => by
       simp only [loadsAtToggle] at h
       rw [if_neg (by decide : ¬("bar" = toggleInput))] at h
       exact Except.noConfusion h)⟩

/-- C6 counterexample: the first frame the handler sends after
registering is the hello frame with the extra `"msg": "connected"`
field, which is not the bare frame `{"type":"hello"}` (nor the code's
own serialization of `{"type": "hello"}` without the extra field). -/
theorem hello_frame_counterexample :
    (wsHandler ∅ 0 true [] .clean).1 = [Act.add 0, Act.send 0 helloFrame, Act.remove 0] ∧
    helloFrame ≠ "\x7b\"type\":\"hello\"\x7d" ∧
    helloFrame ≠ jmsg "hello" := by
  exact ⟨rfl, by decide, by decide⟩

/-- C6 (amended): on every connection the handler first registers the
sink and then immediately sends the structured frame
`{"type": "hello", "msg": "connected"}` as the first server-to-client
message, before anything else. -/
theorem register_then_hello_first (clients : Finset Sink) (ws : Sink) (helloOk : Bool)
    (items : List StreamItem) (stop : StreamEnd) :
    (wsHandler clients ws helloOk items stop).1.take 2 =
      [Act.add ws, Act.send ws helloFrame] := rfl

/-- C7: calling the controller's `broadcast` while the server is not
running — never started, or already stopped — leaves every field of the
controller untouched and schedules nothing; the function is total, so
no exception reaches the caller. -/
theorem controller_broadcast_not_running_noop (st : WsServerController.State)
    (m : String) (h : st.running = false) :
    WsServerController.broadcast st m = st := by
  simp [WsServerController.broadcast, h]

/-- C7 witness: a broadcast on a freshly constructed controller is a
no-op. -/
theorem controller_broadcast_not_running_noop_witness :
    WsServerController.broadcast WsServerController.initial "x" =
      WsServerController.initial :=
  controller_broadcast_not_running_noop WsServerController.initial "x" rfl

/-- C8: when `start` is attempted from a not-running state and the bind
fails, the failure is reported through the caller-provided log
callback, and the system ends not running with the private loop closed
and an empty registry, so that a retried `start` (with the bind now
succeeding) runs. -/
theorem start_bind_failure_clean (st : WsServerController.State)
    (h : st.running = false) :
    ((WsServerController.start st false).1.running = false) ∧
    ((WsServerController.start st false).1.loopAlive = false) ∧
    ((WsServerController.start st false).1.hub = some ∅) ∧
    (WsServerController.LogEntry.bindError ∈ (WsServerController.start st false).2) ∧
    ((WsServerController.start (WsServerController.start st false).1 true).1.running = true) := by
  simp [WsServerController.start, h]

/-- C8 witness: a failed bind from the fresh controller leaves it
clean and retryable. -/
theorem start_bind_failure_clean_witness :
    ((WsServerController.start WsServerController.initial false).1.running = false) ∧
    ((WsServerController.start WsServerController.initial false).1.loopAlive = false) ∧
    ((WsServerController.start WsServerController.initial false).1.hub = some ∅) ∧
    (WsServerController.LogEntry.bindError ∈
      (WsServerController.start WsServerController.initial false).2) ∧
    ((WsServerController.start
        (WsServerController.start WsServerController.initial false).1 true).1.running = true) :=
  start_bind_failure_clean WsServerController.initial rfl

/-- C9: `stop` is a no-op when not running; otherwise the shutdown
trace closes every registered sink first (for every pattern of
individual close failures), then closes the listener, then stops the
runtime — so no sink close happens after the runtime stops — and once
`stop` has taken effect the controller is not running, so a further
broadcast reaches no sink. -/
theorem stop_ordered_shutdown (st : WsServerController.State)
    (closeFails : Sink → Bool) :
    (st.running = false → WsServerController.stop st closeFails = (st, [])) ∧
    (st.running = true → st.loopSet = true →
      ((WsServerController.stop st closeFails).2 =
        (Hub.snapshot (st.hub.getD ∅)).map WsServerController.ShutAct.closeSink ++
          [WsServerController.ShutAct.closeListener, WsServerController.ShutAct.stopRuntime]) ∧
      ((WsServerController.stop st closeFails).1.running = false) ∧
      (∀ m, WsServerController.broadcast (WsServerController.stop st closeFails).1 m =
        (WsServerController.stop st closeFails).1)) := by
  constructor
  · intro h
    simp [WsServerController.stop, h]
  · intro hr hl
    refine ⟨?_, ?_, ?_⟩
    · simp [WsServerController.stop, hr, hl]
    · simp [WsServerController.stop, hr, hl]
    · intro m
      simp [WsServerController.stop, WsServerController.broadcast, hr, hl]

/-- C9 witness: stopping the fresh (not-running) controller is a no-op,
and stopping a running controller with sinks 1 and 2 — both of whose
closes fail — closes both sinks, then the listener, then the runtime,
after which a broadcast is a no-op. -/
theorem stop_ordered_shutdown_witness :
    WsServerController.stop WsServerController.initial (fun _ => true) =
      (WsServerController.initial, []) ∧
    ((WsServerController.stop ⟨true, true, true, true, some {1, 2}, []⟩ (fun _ => true)).2 =
      [WsServerController.ShutAct.closeSink 1, WsServerController.ShutAct.closeSink 2,
       WsServerController.ShutAct.closeListener, WsServerController.ShutAct.stopRuntime]) ∧
    ((WsServerController.stop ⟨true, true, true, true, some {1, 2}, []⟩ (fun _ => true)).1.running = false) ∧
    (WsServerController.broadcast
        (WsServerController.stop ⟨true, true, true, true, some {1, 2}, []⟩ (fun _ => true)).1 "x" =
      (WsServerController.stop ⟨true, true, true, true, some {1, 2}, []⟩ (fun _ => true)).1) := by
  refine ⟨(stop_ordered_shutdown WsServerController.initial (fun _ => true)).1 rfl, ?_, ?_, ?_⟩
  · have h :=
      ((stop_ordered_shutdown ⟨true, true, true, true, some {1, 2}, []⟩ (fun _ => true)).2 rfl rfl).1
    rw [h]
    decide
  · exact ((stop_ordered_shutdown ⟨true, true, true, true, some {1, 2}, []⟩ (fun _ => true)).2 rfl rfl).2.1
  · exact ((stop_ordered_shutdown ⟨true, true, true, true, some {1, 2}, []⟩ (fun _ => true)).2 rfl rfl).2.2 "x"
